import Mathlib

/-!
Formal model of the wrangler `pages functions build` pipeline:
build-mode resolution, binding extraction, builder-error translation,
bundle packaging and output writing, as implemented in
`src/pages/bundle.ts` and `src/api/pages/create-worker-bundle-contents.ts`.

File contents (text), the file system, and JSON parsing are modelled
explicitly so that every operation of the pipeline is an executable
Lean function.
-/

/-- Decidable equality for `Except`, used to evaluate pipeline outcomes on
concrete inputs. -/
instance {ε α : Type} [DecidableEq ε] [DecidableEq α] : DecidableEq (Except ε α)
  | Except.ok x, Except.ok y =>
    if h : x = y then .isTrue (h ▸ rfl)
    else .isFalse (fun hc => h (Except.ok.inj hc))
  | Except.ok _, Except.error _ => .isFalse (fun hc => Except.noConfusion hc)
  | Except.error _, Except.ok _ => .isFalse (fun hc => Except.noConfusion hc)
  | Except.error x, Except.error y =>
    if h : x = y then .isTrue (h ▸ rfl)
    else .isFalse (fun hc => h (Except.error.inj hc))

/-- A file-system entry: a regular file with its content, or a directory. -/
inductive FsEntry where
  | file (content : String)
  | dir
deriving DecidableEq

/-- A file system maps paths to entries (`none` = path does not exist). -/
def Fs : Type := String → Option FsEntry

/-- Model of `node:fs` `existsSync`: the path exists (file or directory). -/
def existsSync (fs : Fs) (p : String) : Bool := (fs p).isSome

/-- Model of `node:fs` `readFileSync(p, { encoding: "utf-8" })`: returns the
text content of a regular file, `none` when the path is missing or a
directory (the real call throws in those cases). -/
def readFileSyncUtf8 (fs : Fs) (p : String) : Option String :=
  match fs p with
  | some (FsEntry.file c) => some c
  | _ => none

/-- Model of `node:fs` `writeFileSync`: replaces whatever was at `p` with a
regular file holding exactly `c`; every other path is untouched. -/
def writeFileSync (fs : Fs) (p : String) (c : String) : Fs :=
  fun q => if q = p then some (FsEntry.file c) else fs q

/-- JavaScript truthiness of an optional string: `undefined` and `""` are
falsy, every other string is truthy. -/
def optStrTruthy : Option String → Bool
  | none => false
  | some s => !(s == "")

/-- Model of `path.resolve(d, f)` for a relative file name `f`:
join with a separator (normalisation of `.`/`..` segments is not needed
by the pipeline and is not modelled). -/
def resolvePath (d f : String) : String := d ++ "/" ++ f

/-- Model of `path.basename`: drop trailing separators, then keep the part
after the last separator. -/
def basename (p : String) : String :=
  String.mk
    (((p.data.reverse.dropWhile (fun c => c == '/')).takeWhile
      (fun c => !(c == '/'))).reverse)

/-- JSON values as produced by `JSON.parse`. Numbers keep their source
lexeme: the pipeline only ever inspects object keys and truthiness, so the
numeric value itself is never needed. -/
inductive Json where
  | null
  | bool (b : Bool)
  | num (lexeme : String)
  | str (s : String)
  | arr (elems : List Json)
  | obj (members : List (String × Json))

/-- JSON insignificant whitespace. -/
def isJsonWs (c : Char) : Bool := c == ' ' || c == '\t' || c == '\n' || c == '\r'

/-- Skip insignificant whitespace. -/
def skipWs (cs : List Char) : List Char := cs.dropWhile isJsonWs

/-- Value of a hexadecimal digit. -/
def hexVal (c : Char) : Option Nat :=
  if c.toNat ≥ 48 ∧ c.toNat ≤ 57 then some (c.toNat - 48)
  else if c.toNat ≥ 97 ∧ c.toNat ≤ 102 then some (c.toNat - 97 + 10)
  else if c.toNat ≥ 65 ∧ c.toNat ≤ 70 then some (c.toNat - 65 + 10)
  else none

/-- Parse the body of a JSON string (the opening quote already consumed),
handling the standard escapes; returns the string and the remaining input. -/
def parseStringBody : Nat → List Char → List Char → Option (String × List Char)
  | 0, _, _ => none
  | _ + 1, [], _ => none
  | fuel + 1, c :: rest, acc =>
    if c == '"' then some (String.mk acc.reverse, rest)
    else if c == '\\' then
      match rest with
      | [] => none
      | e :: rest2 =>
        if e == '"' then parseStringBody fuel rest2 ('"' :: acc)
        else if e == '\\' then parseStringBody fuel rest2 ('\\' :: acc)
        else if e == '/' then parseStringBody fuel rest2 ('/' :: acc)
        else if e == 'b' then parseStringBody fuel rest2 ('\x08' :: acc)
        else if e == 'f' then parseStringBody fuel rest2 ('\x0c' :: acc)
        else if e == 'n' then parseStringBody fuel rest2 ('\n' :: acc)
        else if e == 'r' then parseStringBody fuel rest2 ('\x0d' :: acc)
        else if e == 't' then parseStringBody fuel rest2 ('\t' :: acc)
        else if e == 'u' then
          match rest2 with
          | h1 :: h2 :: h3 :: h4 :: rest3 =>
            match hexVal h1, hexVal h2, hexVal h3, hexVal h4 with
            | some a, some b, some c2, some d =>
              parseStringBody fuel rest3
                (Char.ofNat (((a * 16 + b) * 16 + c2) * 16 + d) :: acc)
            | _, _, _, _ => none
          | _ => none
        else none
    else if c.toNat < 32 then none
    else parseStringBody fuel rest (c :: acc)

/-- One or more decimal digits. -/
def parseDigits (cs : List Char) : Option (List Char × List Char) :=
  let ds := cs.takeWhile Char.isDigit
  if ds.isEmpty then none else some (ds, cs.drop ds.length)

/-- JSON integer part: `0`, or a nonzero digit followed by digits. -/
def parseIntPart (cs : List Char) : Option (List Char × List Char) :=
  match cs with
  | [] => none
  | c :: rest =>
    if c == '0' then some (['0'], rest)
    else if c.isDigit then parseDigits cs
    else none

/-- Optional JSON fraction part. -/
def parseFracPart (cs : List Char) : Option (List Char × List Char) :=
  match cs with
  | '.' :: rest =>
    match parseDigits rest with
    | some (ds, rest2) => some ('.' :: ds, rest2)
    | none => none
  | _ => some ([], cs)

/-- Optional JSON exponent part. -/
def parseExpPart (cs : List Char) : Option (List Char × List Char) :=
  match cs with
  | [] => some ([], cs)
  | e :: rest =>
    if e == 'e' || e == 'E' then
      match rest with
      | [] => none
      | s :: rest2 =>
        if s == '+' || s == '-' then
          match parseDigits rest2 with
          | some (ds, rest3) => some (e :: s :: ds, rest3)
          | none => none
        else
          match parseDigits rest with
          | some (ds, rest3) => some (e :: ds, rest3)
          | none => none
    else some ([], cs)

/-- A JSON number; the lexeme is kept verbatim. -/
def parseNumber (cs : List Char) : Option (String × List Char) :=
  let stripped := match cs with
    | '-' :: rest => (['-'], rest)
    | _ => (([] : List Char), cs)
  match parseIntPart stripped.2 with
  | none => none
  | some (ip, cs2) =>
    match parseFracPart cs2 with
    | none => none
    | some (fp, cs3) =>
      match parseExpPart cs3 with
      | none => none
      | some (ep, cs4) => some (String.mk (stripped.1 ++ ip ++ fp ++ ep), cs4)

/-- Consume an exact literal. -/
def stripLiteral (lit : List Char) (cs : List Char) : Option (List Char) :=
  if cs.take lit.length = lit then some (cs.drop lit.length) else none

mutual

/-- Fuel-indexed recursive-descent parser for one JSON value. -/
def parseValue : Nat → List Char → Option (Json × List Char)
  | 0, _ => none
  | fuel + 1, cs =>
    match skipWs cs with
    | [] => none
    | c :: rest =>
      if c == '{' then parseMembersStart fuel rest
      else if c == '[' then parseElemsStart fuel rest
      else if c == '"' then
        match parseStringBody (rest.length + 1) rest [] with
        | some (s, rest2) => some (Json.str s, rest2)
        | none => none
      else if c == 't' then
        match stripLiteral ['r', 'u', 'e'] rest with
        | some rest2 => some (Json.bool true, rest2)
        | none => none
      else if c == 'f' then
        match stripLiteral ['a', 'l', 's', 'e'] rest with
        | some rest2 => some (Json.bool false, rest2)
        | none => none
      else if c == 'n' then
        match stripLiteral ['u', 'l', 'l'] rest with
        | some rest2 => some (Json.null, rest2)
        | none => none
      else
        match parseNumber (c :: rest) with
        | some (lex, rest2) => some (Json.num lex, rest2)
        | none => none

/-- After `\x7b`: either an empty object or a member list. -/
def parseMembersStart : Nat → List Char → Option (Json × List Char)
  | 0, _ => none
  | fuel + 1, cs =>
    match skipWs cs with
    | '}' :: rest => some (Json.obj [], rest)
    | cs2 => parseMembers fuel cs2 []

/-- Members of an object, accumulated in reverse. -/
def parseMembers : Nat → List Char → List (String × Json) →
    Option (Json × List Char)
  | 0, _, _ => none
  | fuel + 1, cs, acc =>
    match skipWs cs with
    | '"' :: rest =>
      match parseStringBody (rest.length + 1) rest [] with
      | some (k, rest2) =>
        match skipWs rest2 with
        | ':' :: rest3 =>
          match parseValue fuel rest3 with
          | some (v, rest4) =>
            match skipWs rest4 with
            | ',' :: rest5 => parseMembers fuel rest5 ((k, v) :: acc)
            | '}' :: rest5 => some (Json.obj ((k, v) :: acc).reverse, rest5)
            | _ => none
          | none => none
        | _ => none
      | none => none
    | _ => none

/-- After `[`: either an empty array or an element list. -/
def parseElemsStart : Nat → List Char → Option (Json × List Char)
  | 0, _ => none
  | fuel + 1, cs =>
    match skipWs cs with
    | ']' :: rest => some (Json.arr [], rest)
    | cs2 => parseElems fuel cs2 []

/-- Elements of an array, accumulated in reverse. -/
def parseElems : Nat → List Char → List Json → Option (Json × List Char)
  | 0, _, _ => none
  | fuel + 1, cs, acc =>
    match parseValue fuel cs with
    | some (v, rest) =>
      match skipWs rest with
      | ',' :: rest2 => parseElems fuel rest2 (v :: acc)
      | ']' :: rest2 => some (Json.arr (v :: acc).reverse, rest2)
      | _ => none
    | none => none

end

/-- Model of `JSON.parse`: parse one value surrounded by optional
whitespace; `none` models a thrown `SyntaxError`. The fuel is an upper
bound on parser steps: each consumed character costs at most three. -/
def jsonParse (s : String) : Option Json :=
  match parseValue (3 * s.data.length + 8) s.data with
  | some (j, rest) => if (skipWs rest).isEmpty then some j else none
  | none => none

/-- Remove duplicate keys keeping the first occurrence, as `Object.keys`
reports each key of a parsed object once, at its first position. -/
def dedupFirst (seen : List String) : List String → List String
  | [] => []
  | k :: ks =>
    if k ∈ seen then dedupFirst seen ks else k :: dedupFirst (k :: seen) ks

/-- Model of `Object.keys` on a JSON value: own enumerable keys of an
object; index keys of an array or a string; nothing for primitives. -/
def jsObjectKeys : Json → List String
  | Json.obj members => dedupFirst [] (members.map Prod.fst)
  | Json.arr elems => (List.range elems.length).map (fun i => toString i)
  | Json.str s => (List.range s.data.length).map (fun i => toString i)
  | _ => []

/-- Whether a JSON number lexeme denotes zero (every mantissa digit is 0). -/
def numLexemeIsZero (lex : String) : Bool :=
  ((lex.data.takeWhile (fun c => !(c == 'e') && !(c == 'E'))).filter
    Char.isDigit).all (fun c => c == '0')

/-- JavaScript falsiness of a parsed JSON value (`null`, `false`, `0`, `""`). -/
def jsFalsy : Json → Bool
  | Json.null => true
  | Json.bool b => !b
  | Json.num lex => numLexemeIsZero lex
  | Json.str s => s == ""
  | Json.arr _ => false
  | Json.obj _ => false

/-- Value of a key in a parsed JSON object; with duplicate keys the last
occurrence wins, as in `JSON.parse`. -/
def jsObjGet (members : List (String × Json)) (key : String) : Option Json :=
  match members with
  | [] => none
  | (k, v) :: rest =>
    match jsObjGet rest key with
    | some v2 => some v2
    | none => if k == key then some v else none

/-- Model of optional property access `j?.key`: defined only on objects;
on primitives and arrays the property is absent (`undefined`). -/
def jsGetProp (j : Json) (key : String) : Option Json :=
  match j with
  | Json.obj members => jsObjGet members key
  | _ => none

/-- Model of `Object.keys(decodedBindings?.d1_databases \x7c\x7c \x7b\x7d)` from
`bundle.ts` line 150: a missing or falsy category contributes the keys of
the empty object. -/
def d1DatabasesOf (decodedBindings : Json) : List String :=
  match jsGetProp decodedBindings "d1_databases" with
  | none => []
  | some v => if jsFalsy v then [] else jsObjectKeys v

/-- The errors the modelled `buildRawWorker` / `buildFunctions` collaborators
can raise: the dedicated `FunctionsNoRoutesError`, or any other failure. -/
inductive BuildError where
  | noRoutes
  | other (msg : String)
deriving DecidableEq

/-- Process-level failures of the `Handler`, one constructor per distinct
throw site of `bundle.ts`. -/
inductive HandlerError where
  | userInput (msg : String)
  | bindingParse (msg : String) (code : Nat)
  | noRoutesFatal (msg : String) (code : Nat)
  | builder (e : BuildError)
  | bundleUndefined
  | entryReadError
deriving DecidableEq

/-- Message of the `FatalError` thrown for a malformed bindings blob
(`bundle.ts` line 152, quotes around the flag name elided). -/
def bindingParseErrorMessage : String := "Could not parse a valid set of bindings."

/-- Binding extraction (`bundle.ts` lines 146-154): `undefined` stays
unset; an empty blob is falsy and also stays unset; otherwise the blob is
parsed and the key set of `d1_databases` (or of the empty object) is
extracted; a parse failure is fatal with exit code 1. -/
def extractD1Databases (bindings : Option String) :
    Except HandlerError (Option (List String)) :=
  match bindings with
  | none => Except.ok none
  | some s =>
    if s == "" then Except.ok none
    else
      match jsonParse s with
      | some decoded => Except.ok (some (d1DatabasesOf decoded))
      | none => Except.error (HandlerError.bindingParse bindingParseErrorMessage 1)

/-- Module content types of the upload format (spec §3 `Module.type`). -/
inductive CfModuleType where
  | esm
  | commonjs
  | text
  | binary
  | wasm
deriving DecidableEq

/-- One named, typed content block of a bundle (spec §3 `Module`). -/
structure CfModule where
  name : String
  content : String
  type : CfModuleType
deriving DecidableEq

/-- Modelled from the spec: the `bundleType` field of `BundleResult`
(`src/bundle.ts` is not in scope), enum of `esm` and `commonjs`. -/
inductive BundleType where
  | esm
  | commonjs
deriving DecidableEq

/-- Modelled from the spec: `BundleResult` (`src/bundle.ts` is not in
scope) — resolved entry-point path, ordered module list, bundle type. The
bundle type is optional here because the packaging source guards it with
`\x7c\x7c "esm"`. -/
structure BundleResult where
  resolvedEntryPointPath : String
  modules : List CfModule
  bundleType : Option BundleType
deriving DecidableEq

/-- Model of `workerBundle.bundleType \x7c\x7c "esm"` from
`create-worker-bundle-contents.ts` line 32. -/
def bundleTypeOrEsm : Option BundleType → CfModuleType
  | some BundleType.esm => CfModuleType.esm
  | some BundleType.commonjs => CfModuleType.commonjs
  | none => CfModuleType.esm

/-- The binding-category table of `CfWorkerInit`; this pipeline leaves
every category unset (`undefined`), so each field is an `Option` that the
packager fills with `none`. The last field models the source's field for
unrestricted capabilities. -/
structure CfBindings where
  vars : Option Unit
  kv_namespaces : Option Unit
  wasm_modules : Option Unit
  text_blobs : Option Unit
  data_blobs : Option Unit
  durable_objects : Option Unit
  queues : Option Unit
  r2_buckets : Option Unit
  d1_databases : Option Unit
  services : Option Unit
  analytics_engine_datasets : Option Unit
  dispatch_namespaces : Option Unit
  logfwdr : Option Unit
  unsafeTable : Option Unit
deriving DecidableEq

/-- The worker-init descriptor assembled by `createWorkerBundleFormData`
(`create-worker-bundle-contents.ts` lines 35-61). -/
structure CfWorkerInit where
  name : String
  main : CfModule
  modules : List CfModule
  bindings : CfBindings
  migrations : Option Unit
  compatibility_date : Option Unit
  compatibility_flags : Option Unit
  usage_model : Option Unit
  keepVars : Option Unit
  logpush : Option Unit
deriving DecidableEq

/-- The all-unset binding table written literally in the source. -/
def emptyBindings : CfBindings :=
  ⟨none, none, none, none, none, none, none,
    none, none, none, none, none, none, none⟩

/-- The `mainModule` / `worker` construction of `createWorkerBundleFormData`
(`create-worker-bundle-contents.ts` lines 27-61): the main module's name is
the base filename of `resolvedEntryPointPath`, its content is re-read from
disk as utf-8 text, its type is the bundle type (defaulted to `esm`);
every binding category and deploy-time field is left unset. `none` models
the `readFileSync` throw when the entry file is missing. -/
def createWorkerBundleWorkerInit (fs : Fs) (workerBundle : BundleResult) :
    Option CfWorkerInit :=
  match readFileSyncUtf8 fs workerBundle.resolvedEntryPointPath with
  | none => none
  | some entryContent =>
    let mainModule : CfModule :=
      { name := basename workerBundle.resolvedEntryPointPath
        content := entryContent
        type := bundleTypeOrEsm workerBundle.bundleType }
    some
      { name := mainModule.name
        main := mainModule
        modules := workerBundle.modules
        bindings := emptyBindings
        migrations := none
        compatibility_date := none
        compatibility_flags := none
        usage_model := none
        keepVars := none
        logpush := none }

/-- One named, typed part of the multi-part upload payload. -/
structure FormPart where
  partName : String
  contentType : String
  content : String
deriving DecidableEq

/-- Modelled from the spec: the content type attached to a module part,
one fixed tag per module type. -/
def moduleContentType : CfModuleType → String
  | CfModuleType.esm => "application/javascript+module"
  | CfModuleType.commonjs => "application/javascript"
  | CfModuleType.text => "text/plain"
  | CfModuleType.binary => "application/octet-stream"
  | CfModuleType.wasm => "application/wasm"

/-- A module as a named, typed part. -/
def modulePart (m : CfModule) : FormPart :=
  { partName := m.name, contentType := moduleContentType m.type
    content := m.content }

/-- Modelled from the spec: the structured (JSON) blob carrying the
envelope's non-module metadata — here only the main-module reference, as
every other field of the descriptor is unset. -/
def metadataBlob (w : CfWorkerInit) : String :=
  "\x7b\"main_module\":\"" ++ w.main.name ++ "\"\x7d"

/-- Modelled from the spec: `createWorkerUploadForm`
(`src/create-worker-upload-form.ts` is not in scope) — one metadata part
plus one part per module (main module first, then the module list in
order). -/
def createWorkerUploadForm (w : CfWorkerInit) : List FormPart :=
  { partName := "metadata", contentType := "application/json"
    content := metadataBlob w }
    :: modulePart w.main :: w.modules.map modulePart

/-- Function `createWorkerBundleFormData` (`create-worker-bundle-contents.ts`
lines 26-64): build the worker-init descriptor, then the upload form. -/
def createWorkerBundleFormData (fs : Fs) (workerBundle : BundleResult) :
    Option (List FormPart) :=
  (createWorkerBundleWorkerInit fs workerBundle).map createWorkerUploadForm

/-- Modelled from the spec: deterministic byte serialization of the
multi-part payload — each part contributes its name, type and content. -/
def serializeFormPart (p : FormPart) : String :=
  "--part\n" ++ p.partName ++ "\n" ++ p.contentType ++ "\n" ++ p.content ++ "\n"

/-- Modelled from the spec: serialization of the whole form. -/
def serializeFormData (parts : List FormPart) : String :=
  String.join (parts.map serializeFormPart) ++ "--end\n"

/-- Function `createUploadWorkerBundleContents`
(`create-worker-bundle-contents.ts` lines 14-21): the serialized bytes of
the form built from the bundle. -/
def createUploadWorkerBundleContents (fs : Fs) (workerBundle : BundleResult) :
    Option String :=
  (createWorkerBundleFormData fs workerBundle).map serializeFormData

/-- The yargs default of `functions-directory` (`bundle.ts` line 34). -/
def defaultFunctionsDirectory : String := "functions"

/-- The yargs default of `outfile` (`bundle.ts` line 39). -/
def defaultOutfile : String := "_worker.js"

/-- The outfile imposed in binary-envelope mode (`bundle.ts` line 158). -/
def workerBundleOutfile : String := "_worker.bundle"

/-- Modelled from the spec: the generic exit code used by every fatal
condition without a dedicated one (`FatalError` of `src/errors.ts` is not
in scope); the bindings parse failure passes this value explicitly. -/
def defaultExitCode : Nat := 1

/-- Modelled from the spec: the dedicated, distinct, non-zero exit code
reserved for the no-routes condition (`src/pages/errors.ts` is not in
scope; the spec fixes distinctness, not the numeral). -/
def EXIT_CODE_FUNCTIONS_NO_ROUTES_ERROR : Nat := 2

/-- Modelled from the spec: `getFunctionsNoRoutesWarning`
(`src/pages/errors.ts` is not in scope) — a remediation message that
references the functions directory. -/
def getFunctionsNoRoutesWarning (functionsDirectory : String) : String :=
  "No routes found when building Functions directory (" ++ functionsDirectory
    ++ ") - make sure it contains route files before building."

/-- First line of the `FatalError` message for the missing-input condition
(`bundle.ts` lines 140-143). -/
def missingInputMessage : String :=
  "Could not find a static assets directory or the Functions directory."

/-- `const workerScriptPath = directory && resolvePath(directory, "_worker.js")`
(`bundle.ts` line 156): defined (truthy) exactly when a static-assets
directory was truthily provided; the file's existence is never checked. -/
def workerScriptPath (directory : Option String) : Option String :=
  match directory with
  | none => none
  | some d => if d == "" then none else some (resolvePath d "_worker.js")

/-- The selected build mode (spec §3 `BuildMode`). -/
inductive BuildMode where
  | rawWorker (entryPath : String)
  | functions (dirPath : String)
  | unresolved
deriving DecidableEq

/-- The branch structure of `bundle.ts` lines 165-227:
`if (workerScriptPath) ... else if (functionsDirectory) ...` — raw worker
wins whenever its path is defined, else a truthy functions directory
selects Functions, else nothing is built. -/
def resolveBuildMode (directory : Option String) (functionsDirectory : String) :
    BuildMode :=
  match workerScriptPath directory with
  | some p => BuildMode.rawWorker p
  | none =>
    if functionsDirectory == "" then BuildMode.unresolved
    else BuildMode.functions functionsDirectory

/-- The configuration surface of the `Handler` that the modelled pipeline
inspects. The pass-through build options (minify, sourcemap, watch,
plugin, fallback service, node compatibility, output config/routes paths)
only parameterise the external builder and are absorbed into the builder
oracles below. -/
structure PagesBuildArgs where
  directory : Option String
  functionsDirectory : String
  outfile : String
  bindings : Option String
  experimentalWorkerBundle : Bool
deriving DecidableEq

/-- `outfile = experimentalWorkerBundle ? "_worker.bundle" : outfile`
(`bundle.ts` line 158). -/
def effectiveOutfile (outfile : String) (experimentalWorkerBundle : Bool) :
    String :=
  if experimentalWorkerBundle then workerBundleOutfile else outfile

/-- The `Handler` of `bundle.ts` (lines 105-241). The two external builder
invocations are oracles: the pipeline only awaits their
result-or-error. The returned pair is the process outcome and the file
system after the pipeline's own writes (an error leaves it untouched).
Steps, in source order: the missing-input check (lines 135-144), binding
extraction (lines 146-154), the outfile replacement (line 158), mode
dispatch with no-routes translation (lines 165-227), and the conditional
packaging and write (lines 229-238). -/
def Handler (args : PagesBuildArgs) (fs : Fs)
    (rawWorkerBuild : Except BuildError BundleResult)
    (functionsBuild : Except BuildError BundleResult) :
    Except HandlerError Unit × Fs :=
  if !optStrTruthy args.directory && (args.functionsDirectory == "functions")
      && !existsSync fs args.functionsDirectory then
    (Except.error (HandlerError.userInput missingInputMessage), fs)
  else
    match extractD1Databases args.bindings with
    | Except.error e => (Except.error e, fs)
    | Except.ok _d1Databases =>
      let outfile := effectiveOutfile args.outfile args.experimentalWorkerBundle
      let bundleStep : Except HandlerError (Option BundleResult) :=
        match resolveBuildMode args.directory args.functionsDirectory with
        | BuildMode.rawWorker _entryPath =>
          match rawWorkerBuild with
          | Except.error e => Except.error (HandlerError.builder e)
          | Except.ok b => Except.ok (some b)
        | BuildMode.functions dirPath =>
          match functionsBuild with
          | Except.error BuildError.noRoutes =>
            Except.error (HandlerError.noRoutesFatal
              (getFunctionsNoRoutesWarning dirPath)
              EXIT_CODE_FUNCTIONS_NO_ROUTES_ERROR)
          | Except.error e => Except.error (HandlerError.builder e)
          | Except.ok b => Except.ok (some b)
        | BuildMode.unresolved => Except.ok none
      match bundleStep with
      | Except.error e => (Except.error e, fs)
      | Except.ok obundle =>
        if args.experimentalWorkerBundle then
          match obundle with
          | none => (Except.error HandlerError.bundleUndefined, fs)
          | some b =>
            match createUploadWorkerBundleContents fs b with
            | none => (Except.error HandlerError.entryReadError, fs)
            | some payload => (Except.ok (), writeFileSync fs outfile payload)
        else (Except.ok (), fs)

/-- The process exit code attached to a `Handler` failure: dedicated codes
are carried by the error, everything else exits with the generic code. -/
def exitCodeOf : HandlerError → Nat
  | HandlerError.userInput _ => defaultExitCode
  | HandlerError.bindingParse _ code => code
  | HandlerError.noRoutesFatal _ code => code
  | HandlerError.builder _ => defaultExitCode
  | HandlerError.bundleUndefined => defaultExitCode
  | HandlerError.entryReadError => defaultExitCode

/-- A sample file system: a built entry file and a functions directory. -/
def sampleFs : Fs :=
  fun p => if p = "/tmp/w.mjs" then some (FsEntry.file "CODE")
    else if p = "functions" then some FsEntry.dir else none

/-- A sample bundle whose entry file exists in `sampleFs`. -/
def sampleBundle : BundleResult :=
  { resolvedEntryPointPath := "/tmp/w.mjs", modules := []
    bundleType := some BundleType.esm }

/-- The worker-init descriptor the packager produces from `sampleFs` and
`sampleBundle`. -/
def sampleWorkerInit : CfWorkerInit :=
  { name := "w.mjs"
    main := { name := "w.mjs", content := "CODE", type := CfModuleType.esm }
    modules := []
    bindings := emptyBindings
    migrations := none
    compatibility_date := none
    compatibility_flags := none
    usage_model := none
    keepVars := none
    logpush := none }


/-- Helper: a falsy `directory` argument leaves the raw-worker script path
undefined. -/
theorem workerScriptPath_eq_none (directory : Option String)
    (h : optStrTruthy directory = false) : workerScriptPath directory = none := by
  cases directory with
  | none => rfl
  | some d =>
    simp [optStrTruthy] at h
    simp [workerScriptPath, h]

/-- Helper: the defaulted bundle type is always one of the two script
module types. -/
theorem bundleTypeOrEsm_esm_or_commonjs (ob : Option BundleType) :
    bundleTypeOrEsm ob = CfModuleType.esm
      ∨ bundleTypeOrEsm ob = CfModuleType.commonjs := by
  cases ob with
  | none => exact Or.inl rfl
  | some bt => cases bt with
    | esm => exact Or.inl rfl
    | commonjs => exact Or.inr rfl

/-- Helper: inversion of the worker-init construction — a successful
packaging step pins every field of the descriptor. -/
theorem createWorkerBundleWorkerInit_eq (fs : Fs) (wb : BundleResult)
    (w : CfWorkerInit) (h : createWorkerBundleWorkerInit fs wb = some w) :
    ∃ entryContent,
      readFileSyncUtf8 fs wb.resolvedEntryPointPath = some entryContent
      ∧ w = { name := basename wb.resolvedEntryPointPath
              main := { name := basename wb.resolvedEntryPointPath
                        content := entryContent
                        type := bundleTypeOrEsm wb.bundleType }
              modules := wb.modules
              bindings := emptyBindings
              migrations := none
              compatibility_date := none
              compatibility_flags := none
              usage_model := none
              keepVars := none
              logpush := none } := by
  unfold createWorkerBundleWorkerInit at h
  cases hr : readFileSyncUtf8 fs wb.resolvedEntryPointPath with
  | none => rw [hr] at h; exact absurd h (by simp)
  | some c =>
    rw [hr] at h
    simp only [Option.some.injEq] at h
    exact ⟨c, rfl, h.symm⟩

/-- Helper: membership in the deduplicated key list. -/
theorem mem_dedupFirst (k : String) (l : List String) :
    ∀ seen, k ∈ dedupFirst seen l ↔ (k ∈ l ∧ k ∉ seen) := by
  induction l with
  | nil => intro seen; simp [dedupFirst]
  | cons x xs ih =>
    intro seen
    by_cases hx : x ∈ seen
    · rw [dedupFirst, if_pos hx, ih]
      constructor
      · rintro ⟨hk, hns⟩
        exact ⟨List.mem_cons_of_mem _ hk, hns⟩
      · rintro ⟨hk, hns⟩
        rcases List.mem_cons.mp hk with hkx | hkxs
        · exact absurd (hkx ▸ hx) hns
        · exact ⟨hkxs, hns⟩
    · rw [dedupFirst, if_neg hx]
      constructor
      · intro hmem
        rcases List.mem_cons.mp hmem with hkx | htail
        · exact ⟨hkx ▸ List.mem_cons_self x xs, hkx ▸ hx⟩
        · rcases (ih (x :: seen)).mp htail with ⟨hk, hns⟩
          refine ⟨List.mem_cons_of_mem _ hk, fun hs => hns (List.mem_cons_of_mem _ hs)⟩
      · rintro ⟨hk, hns⟩
        rcases List.mem_cons.mp hk with hkx | hkxs
        · exact hkx ▸ List.mem_cons_self x (dedupFirst (x :: seen) xs)
        · by_cases hkx2 : k = x
          · exact hkx2 ▸ List.mem_cons_self x (dedupFirst (x :: seen) xs)
          · refine List.mem_cons_of_mem _ ((ih (x :: seen)).mpr ⟨hkxs, ?_⟩)
            intro hmem
            rcases List.mem_cons.mp hmem with h1 | h2
            · exact hkx2 h1
            · exact hns h2


/-- C1, counterexample: the claim says RawWorker is selected exactly when a
raw entry script exists at the resolved static-assets location, and never
when it does not. On a file system holding a functions directory but no
`proj/_worker.js`, providing the directory `proj` still selects RawWorker
and the Handler invokes the raw-worker builder. -/
theorem claim_C1_counterexample :
    ((fun p => if p = "functions" then some FsEntry.dir else none : Fs)
        "proj/_worker.js" = none)
    ∧ resolveBuildMode (some "proj") "functions"
        = BuildMode.rawWorker "proj/_worker.js"
    ∧ (Handler
          { directory := some "proj", functionsDirectory := "functions"
            outfile := "_worker.js", bindings := none
            experimentalWorkerBundle := false }
          (fun p => if p = "functions" then some FsEntry.dir else none)
          (Except.error (BuildError.other "raw worker build ran"))
          (Except.ok sampleBundle)).1
        = Except.error (HandlerError.builder (BuildError.other "raw worker build ran")) := by
  refine ⟨by decide, by decide, by decide⟩

/-- C1, amended: mode resolution selects RawWorker exactly when a
static-assets directory is truthily provided — irrespective of whether the
raw entry script exists on disk — even if a functions directory is also
present; the selected entry path is `directory/_worker.js`. Otherwise,
when the rule-2 failure does not apply and the functions directory is
non-empty, it selects Functions with the given functions directory. -/
theorem rawWorker_mode_iff_directory_provided
    (directory : Option String) (functionsDirectory : String) :
    ((∃ p, resolveBuildMode directory functionsDirectory = BuildMode.rawWorker p)
        ↔ optStrTruthy directory = true)
    ∧ (∀ d, directory = some d → d ≠ "" →
        resolveBuildMode directory functionsDirectory
          = BuildMode.rawWorker (resolvePath d "_worker.js"))
    ∧ (optStrTruthy directory = false → functionsDirectory ≠ "" →
        resolveBuildMode directory functionsDirectory
          = BuildMode.functions functionsDirectory) := by
  refine ⟨⟨?_, ?_⟩, ?_, ?_⟩
  · rintro ⟨p, hp⟩
    cases directory with
    | none =>
      simp [resolveBuildMode, workerScriptPath] at hp
      by_cases hfd : functionsDirectory = "" <;> simp [hfd] at hp
    | some d =>
      by_cases hd : d = ""
      · subst hd
        simp [resolveBuildMode, workerScriptPath] at hp
        by_cases hfd : functionsDirectory = "" <;> simp [hfd] at hp
      · simp [optStrTruthy, hd]
  · intro ht
    cases directory with
    | none => simp [optStrTruthy] at ht
    | some d =>
      simp [optStrTruthy] at ht
      exact ⟨resolvePath d "_worker.js", by simp [resolveBuildMode, workerScriptPath, ht]⟩
  · intro d hd hne
    subst hd
    simp [resolveBuildMode, workerScriptPath, hne]
  · intro hf hne
    rw [resolveBuildMode, workerScriptPath_eq_none directory hf]
    simp [hne]

/-- Witness for C1 at a concrete directory. -/
theorem rawWorker_mode_iff_directory_provided_witness :
    resolveBuildMode (some "proj") "functions"
      = BuildMode.rawWorker (resolvePath "proj" "_worker.js") :=
  (rawWorker_mode_iff_directory_provided (some "proj") "functions").2.1
    "proj" rfl (by decide)


/-- C2: packaging is a pure function of the current on-disk entry content
and the BundleResult structure — any two packaging calls whose file
systems agree at the resolved entry-point path produce byte-identical
serialized multi-part payloads; in particular packaging the same bundle
twice without an intervening rebuild does. -/
theorem packaging_pure_of_entry_content (fs1 fs2 : Fs) (wb : BundleResult)
    (h : fs1 wb.resolvedEntryPointPath = fs2 wb.resolvedEntryPointPath) :
    createUploadWorkerBundleContents fs1 wb
      = createUploadWorkerBundleContents fs2 wb := by
  unfold createUploadWorkerBundleContents createWorkerBundleFormData
    createWorkerBundleWorkerInit readFileSyncUtf8
  rw [h]

/-- Witness for C2 on two concrete file systems that agree at the entry
path but differ elsewhere. -/
theorem packaging_pure_of_entry_content_witness :
    ((fun p => if p = "/tmp/w.mjs" then some (FsEntry.file "CODE") else none : Fs)
        "/tmp/w.mjs"
      = sampleFs "/tmp/w.mjs")
    ∧ createUploadWorkerBundleContents
        (fun p => if p = "/tmp/w.mjs" then some (FsEntry.file "CODE") else none)
        sampleBundle
      = createUploadWorkerBundleContents sampleFs sampleBundle :=
  ⟨by decide,
    packaging_pure_of_entry_content _ _ sampleBundle (by decide)⟩


/-- C3: at packaging time the main module content is exactly the utf-8
text read from the file at `resolvedEntryPointPath`; the main module type
is always one of the text module types (`esm`/`commonjs`), so a text read
agrees with the module type; and the on-disk content is authoritative —
any file system with the same content at that path yields the identical
descriptor, so no in-memory build output can influence the result. -/
theorem packaging_reads_entry_from_disk (fs : Fs) (wb : BundleResult)
    (w : CfWorkerInit) (h : createWorkerBundleWorkerInit fs wb = some w) :
    readFileSyncUtf8 fs wb.resolvedEntryPointPath = some w.main.content
    ∧ (w.main.type = CfModuleType.esm ∨ w.main.type = CfModuleType.commonjs)
    ∧ (∀ fs2 : Fs, fs2 wb.resolvedEntryPointPath = fs wb.resolvedEntryPointPath →
        createWorkerBundleWorkerInit fs2 wb = some w) := by
  obtain ⟨c, hr, hw⟩ := createWorkerBundleWorkerInit_eq fs wb w h
  subst hw
  refine ⟨hr, bundleTypeOrEsm_esm_or_commonjs wb.bundleType, ?_⟩
  intro fs2 h2
  unfold createWorkerBundleWorkerInit readFileSyncUtf8
  rw [h2]
  unfold createWorkerBundleWorkerInit readFileSyncUtf8 at h
  exact h

/-- Witness for C3 on a concrete file system and bundle. -/
theorem packaging_reads_entry_from_disk_witness :
    createWorkerBundleWorkerInit sampleFs sampleBundle = some sampleWorkerInit
    ∧ (readFileSyncUtf8 sampleFs sampleBundle.resolvedEntryPointPath
        = some sampleWorkerInit.main.content
      ∧ (sampleWorkerInit.main.type = CfModuleType.esm
        ∨ sampleWorkerInit.main.type = CfModuleType.commonjs)
      ∧ (∀ fs2 : Fs,
          fs2 sampleBundle.resolvedEntryPointPath
            = sampleFs sampleBundle.resolvedEntryPointPath →
          createWorkerBundleWorkerInit fs2 sampleBundle = some sampleWorkerInit)) :=
  ⟨by decide,
    packaging_reads_entry_from_disk sampleFs sampleBundle sampleWorkerInit (by decide)⟩


/-- C5: when no static-assets directory was truthily requested, the
functions directory equals its default value `functions`, and that
directory does not exist, the Handler fails with the user-input error
(the dedicated missing-input message) carrying the default exit code,
leaving the file system untouched. -/
theorem missing_input_user_error (args : PagesBuildArgs) (fs : Fs)
    (raw fns : Except BuildError BundleResult)
    (hdir : optStrTruthy args.directory = false)
    (hfd : args.functionsDirectory = "functions")
    (hex : existsSync fs args.functionsDirectory = false) :
    (Handler args fs raw fns).1
      = Except.error (HandlerError.userInput missingInputMessage)
    ∧ (Handler args fs raw fns).2 = fs
    ∧ exitCodeOf (HandlerError.userInput missingInputMessage) = defaultExitCode := by
  have hcond : (!optStrTruthy args.directory
      && (args.functionsDirectory == "functions")
      && !existsSync fs args.functionsDirectory) = true := by
    rw [hdir, hex, hfd]; rfl
  unfold Handler
  rw [hcond]
  exact ⟨rfl, rfl, rfl⟩

/-- Witness for C5 on an empty file system. -/
theorem missing_input_user_error_witness :
    (Handler
        { directory := none, functionsDirectory := "functions"
          outfile := "_worker.js", bindings := none
          experimentalWorkerBundle := false }
        (fun _ => none) (Except.ok sampleBundle) (Except.ok sampleBundle)).1
      = Except.error (HandlerError.userInput missingInputMessage)
    ∧ (Handler
        { directory := none, functionsDirectory := "functions"
          outfile := "_worker.js", bindings := none
          experimentalWorkerBundle := false }
        (fun _ => none) (Except.ok sampleBundle) (Except.ok sampleBundle)).2
      = (fun _ => none)
    ∧ exitCodeOf (HandlerError.userInput missingInputMessage) = defaultExitCode :=
  missing_input_user_error _ _ _ _ (by decide) rfl (by decide)


/-- C8: the packaged main module declares as its name the base filename of
`resolvedEntryPointPath`, both in the descriptor and in its form part; at
the concrete path of the spec example the derived name is exactly
`bundledWorker-42.mjs`. -/
theorem main_module_name_is_basename (fs : Fs) (wb : BundleResult)
    (w : CfWorkerInit) (h : createWorkerBundleWorkerInit fs wb = some w) :
    w.main.name = basename wb.resolvedEntryPointPath
    ∧ (modulePart w.main).partName = basename wb.resolvedEntryPointPath
    ∧ basename "/tmp/x/bundledWorker-42.mjs" = "bundledWorker-42.mjs" := by
  obtain ⟨c, hr, hw⟩ := createWorkerBundleWorkerInit_eq fs wb w h
  subst hw
  exact ⟨rfl, rfl, by decide⟩

/-- Witness for C8 on a concrete bundle. -/
theorem main_module_name_is_basename_witness :
    createWorkerBundleWorkerInit sampleFs sampleBundle = some sampleWorkerInit
    ∧ (sampleWorkerInit.main.name = basename sampleBundle.resolvedEntryPointPath
      ∧ (modulePart sampleWorkerInit.main).partName
          = basename sampleBundle.resolvedEntryPointPath
      ∧ basename "/tmp/x/bundledWorker-42.mjs" = "bundledWorker-42.mjs") :=
  ⟨by decide,
    main_module_name_is_basename sampleFs sampleBundle sampleWorkerInit (by decide)⟩

/-- Helper: with a falsy static-assets directory and a truthy functions
directory, mode resolution selects Functions. -/
theorem resolveBuildMode_functions (directory : Option String) (fd : String)
    (hdir : optStrTruthy directory = false) (hfd : fd ≠ "") :
    resolveBuildMode directory fd = BuildMode.functions fd := by
  rw [resolveBuildMode, workerScriptPath_eq_none directory hdir]
  simp [hfd]


/-- C4: in Functions mode, when the builder raises the no-routes
condition, the pipeline fails with the dedicated no-routes exit code —
non-zero and distinct from the generic code — and a remediation message
that contains the functions directory, writing no output file; every
other builder error propagates with its payload unchanged and equally
writes nothing. -/
theorem noRoutes_translated_other_errors_verbatim
    (args : PagesBuildArgs) (fs : Fs) (raw : Except BuildError BundleResult)
    (hdir : optStrTruthy args.directory = false)
    (hfd : args.functionsDirectory ≠ "")
    (hex : existsSync fs args.functionsDirectory = true)
    (hbind : ∃ d1, extractD1Databases args.bindings = Except.ok d1) :
    ((Handler args fs raw (Except.error BuildError.noRoutes)).1
        = Except.error (HandlerError.noRoutesFatal
            (getFunctionsNoRoutesWarning args.functionsDirectory)
            EXIT_CODE_FUNCTIONS_NO_ROUTES_ERROR)
      ∧ (Handler args fs raw (Except.error BuildError.noRoutes)).2 = fs)
    ∧ (EXIT_CODE_FUNCTIONS_NO_ROUTES_ERROR ≠ 0
      ∧ EXIT_CODE_FUNCTIONS_NO_ROUTES_ERROR ≠ defaultExitCode)
    ∧ (∃ pre post, getFunctionsNoRoutesWarning args.functionsDirectory
        = pre ++ args.functionsDirectory ++ post)
    ∧ (∀ msg, (Handler args fs raw (Except.error (BuildError.other msg))).1
          = Except.error (HandlerError.builder (BuildError.other msg))
        ∧ (Handler args fs raw (Except.error (BuildError.other msg))).2 = fs) := by
  obtain ⟨d1, hd1⟩ := hbind
  have hcond : (!optStrTruthy args.directory
      && (args.functionsDirectory == "functions")
      && !existsSync fs args.functionsDirectory) = false := by
    rw [hex]; simp
  have hmode := resolveBuildMode_functions args.directory args.functionsDirectory hdir hfd
  refine ⟨⟨?_, ?_⟩, ⟨by decide, by decide⟩,
    ⟨"No routes found when building Functions directory (",
      ") - make sure it contains route files before building.", rfl⟩, ?_⟩
  · unfold Handler
    rw [hcond, hd1, hmode]
    rfl
  · unfold Handler
    rw [hcond, hd1, hmode]
    rfl
  · intro msg
    constructor
    · unfold Handler
      rw [hcond, hd1, hmode]
      rfl
    · unfold Handler
      rw [hcond, hd1, hmode]
      rfl

/-- Witness for C4 on a concrete Functions-mode invocation. -/
theorem noRoutes_translated_other_errors_verbatim_witness :
    ((Handler
        { directory := none, functionsDirectory := "functions"
          outfile := "_worker.js", bindings := none
          experimentalWorkerBundle := false }
        sampleFs (Except.ok sampleBundle) (Except.error BuildError.noRoutes)).1
      = Except.error (HandlerError.noRoutesFatal
          (getFunctionsNoRoutesWarning "functions")
          EXIT_CODE_FUNCTIONS_NO_ROUTES_ERROR))
    ∧ EXIT_CODE_FUNCTIONS_NO_ROUTES_ERROR ≠ defaultExitCode :=
  ⟨((noRoutes_translated_other_errors_verbatim
      { directory := none, functionsDirectory := "functions"
        outfile := "_worker.js", bindings := none
        experimentalWorkerBundle := false }
      sampleFs (Except.ok sampleBundle)
      (by decide) (by decide) (by decide) ⟨none, rfl⟩).1).1,
    ((noRoutes_translated_other_errors_verbatim
        { directory := none, functionsDirectory := "functions"
          outfile := "_worker.js", bindings := none
          experimentalWorkerBundle := false }
        sampleFs (Except.ok sampleBundle)
        (by decide) (by decide) (by decide) ⟨none, rfl⟩).2).1.2⟩


/-- C6: an absent bindings blob leaves the extracted set unset (`none`
rather than `some []`); a present blob that parses yields exactly the key
set of its `d1_databases` category — the empty set when the category is
absent, and the member keys when it is an object; the spec's example blob
extracts exactly DB1 and DB2. -/
theorem binding_extraction_success :
    (extractD1Databases none = Except.ok none)
    ∧ (∀ s decoded, jsonParse s = some decoded →
        extractD1Databases (some s) = Except.ok (some (d1DatabasesOf decoded)))
    ∧ (∀ members, jsObjGet members "d1_databases" = none →
        d1DatabasesOf (Json.obj members) = [])
    ∧ (∀ members sub, jsObjGet members "d1_databases" = some (Json.obj sub) →
        ∀ k, (k ∈ d1DatabasesOf (Json.obj members) ↔ k ∈ sub.map Prod.fst))
    ∧ extractD1Databases
        (some "\x7b\"d1_databases\":\x7b\"DB1\":\x7b\x7d,\"DB2\":\x7b\x7d\x7d\x7d")
      = Except.ok (some ["DB1", "DB2"]) := by
  refine ⟨rfl, ?_, ?_, ?_, by decide⟩
  · intro s decoded hparse
    unfold extractD1Databases
    by_cases hs : s = ""
    · subst hs
      have h0 : jsonParse "" = none := rfl
      rw [h0] at hparse
      exact Option.noConfusion hparse
    · have hsb : (s == "") = false := by simpa using hs
      simp only [hsb, Bool.false_eq_true, if_false, hparse]
  · intro members hnone
    simp only [d1DatabasesOf, jsGetProp, hnone]
  · intro members sub hsub k
    simp only [d1DatabasesOf, jsGetProp, hsub, jsFalsy, Bool.false_eq_true,
      if_false, jsObjectKeys]
    rw [mem_dedupFirst k (sub.map Prod.fst) []]
    simp

/-- Witness for C6 at the concrete example blob. -/
theorem binding_extraction_success_witness :
    jsonParse "\x7b\"d1_databases\":\x7b\"DB1\":\x7b\x7d,\"DB2\":\x7b\x7d\x7d\x7d"
      = some (Json.obj [("d1_databases",
          Json.obj [("DB1", Json.obj []), ("DB2", Json.obj [])])])
    ∧ extractD1Databases
        (some "\x7b\"d1_databases\":\x7b\"DB1\":\x7b\x7d,\"DB2\":\x7b\x7d\x7d\x7d")
      = Except.ok (some (d1DatabasesOf (Json.obj [("d1_databases",
          Json.obj [("DB1", Json.obj []), ("DB2", Json.obj [])])]))) :=
  ⟨rfl, binding_extraction_success.2.1 _ _ rfl⟩


/-- C7, counterexample: the claim says every present blob that is not
valid structured data fails with a BindingParseError. The empty string is
present and is not valid JSON, yet extraction succeeds with the set left
unset, because the source guards the parse with a truthiness test. -/
theorem claim_C7_counterexample :
    (some "" ≠ (none : Option String))
    ∧ extractD1Databases (some "") = Except.ok none :=
  ⟨by decide, rfl⟩

/-- C7, amended: every present non-empty bindings blob that fails to
parse makes extraction fail with the binding-parse error carrying its
fixed exit code 1, producing no partial binding set, and the Handler
propagates exactly that failure without touching the file system. -/
theorem binding_parse_failure_fatal (s : String)
    (hne : s ≠ "") (hparse : jsonParse s = none) :
    extractD1Databases (some s)
      = Except.error (HandlerError.bindingParse bindingParseErrorMessage 1)
    ∧ exitCodeOf (HandlerError.bindingParse bindingParseErrorMessage 1) = 1
    ∧ (∀ args fs raw fns, args.bindings = some s →
        existsSync fs args.functionsDirectory = true →
        ((Handler args fs raw fns).1
            = Except.error (HandlerError.bindingParse bindingParseErrorMessage 1)
          ∧ (Handler args fs raw fns).2 = fs)) := by
  have hsb : (s == "") = false := by simpa using hne
  have hext : extractD1Databases (some s)
      = Except.error (HandlerError.bindingParse bindingParseErrorMessage 1) := by
    simp only [extractD1Databases, hsb, Bool.false_eq_true, if_false, hparse]
  refine ⟨hext, rfl, ?_⟩
  intro args fs raw fns hb hex
  have hcond : (!optStrTruthy args.directory
      && (args.functionsDirectory == "functions")
      && !existsSync fs args.functionsDirectory) = false := by
    rw [hex]; simp
  constructor
  · unfold Handler
    rw [hcond, hb, hext]
    rfl
  · unfold Handler
    rw [hcond, hb, hext]
    rfl

/-- Witness for C7 at the malformed blob of the spec example. -/
theorem binding_parse_failure_fatal_witness :
    ("\x7b" ≠ "")
    ∧ extractD1Databases (some "\x7b")
        = Except.error (HandlerError.bindingParse bindingParseErrorMessage 1) :=
  ⟨by decide, (binding_parse_failure_fatal "\x7b" (by decide) rfl).1⟩


/-- C9: when binary-envelope output is requested and the pipeline
succeeds, the packaged payload is written to the effective output path,
fully overwriting it — the path afterwards holds exactly the payload, no
matter what was there before, and every other path is untouched; when
binary-envelope output is not requested, this step performs no write at
all. -/
theorem output_write_exactly_when_requested (args : PagesBuildArgs) (fs : Fs)
    (raw fns : Except BuildError BundleResult) :
    (args.experimentalWorkerBundle = true →
      (Handler args fs raw fns).1 = Except.ok () →
      ∃ payload, (Handler args fs raw fns).2
          = writeFileSync fs (effectiveOutfile args.outfile true) payload)
    ∧ (∀ payload : String,
        writeFileSync fs (effectiveOutfile args.outfile true) payload
            (effectiveOutfile args.outfile true) = some (FsEntry.file payload)
        ∧ ∀ q, q ≠ effectiveOutfile args.outfile true →
            writeFileSync fs (effectiveOutfile args.outfile true) payload q = fs q)
    ∧ (args.experimentalWorkerBundle = false →
        (Handler args fs raw fns).2 = fs) := by
  refine ⟨?_, ?_, ?_⟩
  · intro hexp hok
    unfold Handler at hok ⊢
    rw [hexp] at hok ⊢
    by_cases hcond : (!optStrTruthy args.directory
        && (args.functionsDirectory == "functions")
        && !existsSync fs args.functionsDirectory) = true
    · rw [if_pos hcond] at hok
      exact absurd hok (by simp)
    · rw [if_neg hcond] at hok ⊢
      cases hext : extractD1Databases args.bindings with
      | error e => rw [hext] at hok; simp at hok
      | ok d1 =>
        rw [hext] at hok
        cases hmode : resolveBuildMode args.directory args.functionsDirectory with
        | rawWorker p =>
          rw [hmode] at hok
          cases raw with
          | error e => simp at hok
          | ok b =>
            cases hup : createUploadWorkerBundleContents fs b with
            | none => simp [hup] at hok
            | some payload =>
              refine ⟨payload, ?_⟩
              simp [hup]
        | functions dp =>
          rw [hmode] at hok
          cases fns with
          | error e =>
            cases e with
            | noRoutes => simp at hok
            | other m => simp at hok
          | ok b =>
            cases hup : createUploadWorkerBundleContents fs b with
            | none => simp [hup] at hok
            | some payload =>
              refine ⟨payload, ?_⟩
              simp [hup]
        | unresolved =>
          rw [hmode] at hok
          simp at hok
  · intro payload
    constructor
    · unfold writeFileSync
      simp
    · intro q hq
      unfold writeFileSync
      simp [hq]
  · intro hexp
    unfold Handler
    rw [hexp]
    by_cases hcond : (!optStrTruthy args.directory
        && (args.functionsDirectory == "functions")
        && !existsSync fs args.functionsDirectory) = true
    · rw [if_pos hcond]
    · rw [if_neg hcond]
      cases hext : extractD1Databases args.bindings with
      | error e => rfl
      | ok d1 =>
        cases hmode : resolveBuildMode args.directory args.functionsDirectory with
        | rawWorker p =>
          cases raw with
          | error e => rfl
          | ok b => rfl
        | functions dp =>
          cases fns with
          | error e =>
            cases e with
            | noRoutes => rfl
            | other m => rfl
          | ok b => rfl
        | unresolved => rfl

/-- Witness for C9 on a concrete successful binary-envelope run. -/
theorem output_write_exactly_when_requested_witness :
    ((Handler
        { directory := some "proj", functionsDirectory := "functions"
          outfile := "custom.js", bindings := none
          experimentalWorkerBundle := true }
        sampleFs (Except.ok sampleBundle) (Except.ok sampleBundle)).1
      = Except.ok ())
    ∧ ∃ payload,
        (Handler
            { directory := some "proj", functionsDirectory := "functions"
              outfile := "custom.js", bindings := none
              experimentalWorkerBundle := true }
            sampleFs (Except.ok sampleBundle) (Except.ok sampleBundle)).2
          = writeFileSync sampleFs (effectiveOutfile "custom.js" true) payload :=
  ⟨by decide,
    (output_write_exactly_when_requested
        { directory := some "proj", functionsDirectory := "functions"
          outfile := "custom.js", bindings := none
          experimentalWorkerBundle := true }
        sampleFs (Except.ok sampleBundle) (Except.ok sampleBundle)).1
      rfl (by decide)⟩


/-- C10, counterexample: the claim says an explicitly provided output
path remains the write target in binary-envelope mode. With the explicit
outfile `custom.js` and binary-envelope mode on, the effective outfile is
`_worker.bundle`; a successful run leaves `custom.js` absent and writes
the payload to `_worker.bundle`. -/
theorem claim_C10_counterexample :
    effectiveOutfile "custom.js" true = "_worker.bundle"
    ∧ "_worker.bundle" ≠ "custom.js"
    ∧ (Handler
        { directory := some "proj", functionsDirectory := "functions"
          outfile := "custom.js", bindings := none
          experimentalWorkerBundle := true }
        sampleFs (Except.ok sampleBundle) (Except.ok sampleBundle)).1
      = Except.ok ()
    ∧ (Handler
        { directory := some "proj", functionsDirectory := "functions"
          outfile := "custom.js", bindings := none
          experimentalWorkerBundle := true }
        sampleFs (Except.ok sampleBundle) (Except.ok sampleBundle)).2 "custom.js"
      = none
    ∧ (Handler
        { directory := some "proj", functionsDirectory := "functions"
          outfile := "custom.js", bindings := none
          experimentalWorkerBundle := true }
        sampleFs (Except.ok sampleBundle) (Except.ok sampleBundle)).2 "_worker.bundle"
      = some (FsEntry.file
          (serializeFormData (createWorkerUploadForm sampleWorkerInit))) :=
  ⟨by decide, by decide, by decide, by decide, by decide⟩

/-- C10, amended: the output path defaults to `_worker.js`; when
binary-envelope mode is requested the output path is always the binary
bundle name `_worker.bundle`, overriding even an explicitly provided
path; otherwise the provided path is used unchanged. -/
theorem outfile_default_and_override :
    defaultOutfile = "_worker.js"
    ∧ workerBundleOutfile = "_worker.bundle"
    ∧ (∀ o, effectiveOutfile o true = workerBundleOutfile)
    ∧ (∀ o, effectiveOutfile o false = o) :=
  ⟨rfl, rfl, fun _ => rfl, fun _ => rfl⟩
